import Mathlib

/-!
Verification development for the addressing / identifier / message-attribute
core of the `up-rust` library.

The data model (`UUri`, `UAuthority`, `UEntity`, `UResource`, `UUID`,
`UAttributes`) is generated protobuf code in the original repository; the
structures below model exactly the fields consumed by the validators in
`src/uri/validator/urivalidator.rs`, `src/uuid.rs` and
`src/transport/validator/uattributesvalidator.rs`, which are embedded
function-by-function.  Machine integers (`u64`, `i32`) are modelled as
`Nat` / `Int` with explicit `% 2 ^ 64` wrapping where the code can overflow.
Fallible Rust functions returning `Result<_, E>` (with `E` displayed as a
message string) are modelled as `Except String _`.
-/

/-- Substring test on character lists: `substrB p s` is `true` iff `p` occurs
contiguously inside `s`.  This is the semantics of Rust `str::contains` with a
string pattern. -/
def substrB (p : List Char) : List Char → Bool
  | [] => p.isEmpty
  | c :: rest => p.isPrefixOf (c :: rest) || substrB p rest

/-- Rust `s.contains(pat)` for string slices. -/
def strContains (s pat : String) : Bool := substrB pat.data s.data

/-- ASCII whitespace (the characters Rust `str::trim` strips that can occur
in the protocol's identifiers; the full Unicode White_Space set is not
reachable from the validated fields). -/
def isWhitespaceChar (c : Char) : Bool :=
  c = ' ' || c = '\t' || c = '\n' || c = '\r'

/-- Characters of Rust `s.trim()`: leading and trailing whitespace removed. -/
def trimChars (cs : List Char) : List Char :=
  ((cs.dropWhile isWhitespaceChar).reverse.dropWhile isWhitespaceChar).reverse

/-- Rust `s.trim().is_empty()`: the string is blank. -/
def isBlank (s : String) : Bool := (trimChars s.data).isEmpty

/-- Content of a remote `UAuthority` (protobuf `oneof remote`): either a
textual name or a numeric/IP address. -/
inductive Remote
  | name (n : String)
  | ip (addr : List Nat)

deriving instance DecidableEq for Remote

/-- Authority slot of an address (protobuf `UAuthority`). -/
structure UAuthority where
  remote : Option Remote

deriving instance DecidableEq for UAuthority

/-- Entity slot of an address (protobuf `UEntity`); only the fields read by
the validators are modelled. -/
structure UEntity where
  name : String
  id : Option Nat
  version_major : Option Nat

deriving instance DecidableEq for UEntity

/-- Resource slot of an address (protobuf `UResource`).  The field `inst`
models the protobuf field named `instance` (a Lean keyword). -/
structure UResource where
  name : String
  inst : Option String
  message : Option String
  id : Option Nat

deriving instance DecidableEq for UResource

/-- An address (protobuf `UUri`): optional authority, entity and resource
slots. -/
structure UUri where
  authority : Option UAuthority
  entity : Option UEntity
  resource : Option UResource

deriving instance DecidableEq for UUri

namespace UriValidator

/-- `UriValidator::is_empty`. -/
def is_empty (uri : UUri) : Bool :=
  uri.authority.isNone || uri.entity.isNone || uri.resource.isNone

/-- `UriValidator::is_remote`. -/
def is_remote (authority : UAuthority) : Bool :=
  authority.remote.isSome

/-- `UriValidator::validate`. -/
def validate (uri : UUri) : Except String Unit :=
  if is_empty uri then .error "Uri is empty"
  else if (match uri.authority with
           | some a => !is_remote a
           | none => false) then .error "Uri is remote missing uAuthority"
  else if (match uri.entity with
           | some e => isBlank e.name
           | none => false) then .error "Uri is missing uSoftware Entity name"
  else .ok ()

/-- `UriValidator::is_rpc_method`.  The source unwraps `uri.resource` after
the `!is_empty` guard; the `none` branch below is the (unreachable) panic
branch, settled by the totalised variant `is_rpc_methodQ` further down. -/
def is_rpc_method (uri : UUri) : Bool :=
  !is_empty uri &&
    (match uri.resource with
     | some r =>
         strContains r.name "rpc" &&
           ((r.inst.isSome && !(isBlank (r.inst.getD ""))) ||
            (r.id.isSome && r.id.getD 0 != 0))
     | none => false)

/-- `UriValidator::is_rpc_response`. -/
def is_rpc_response (uri : UUri) : Bool :=
  is_rpc_method uri &&
    (match uri.resource with
     | some r =>
         (r.inst.isSome && strContains (r.inst.getD "") "response") ||
           (r.id.isSome && r.id.getD 0 != 0)
     | none => false)

/-- `UriValidator::validate_rpc_method`. -/
def validate_rpc_method (uri : UUri) : Except String Unit :=
  match validate uri with
  | .error e => .error e
  | .ok _ =>
    if !is_rpc_method uri then
      .error "Invalid RPC method uri. Uri should be the method to be called, or method from response"
    else .ok ()

/-- `UriValidator::validate_rpc_response`. -/
def validate_rpc_response (uri : UUri) : Except String Unit :=
  match validate uri with
  | .error e => .error e
  | .ok _ =>
    if is_rpc_response uri then .error "Invalid RPC response type"
    else .ok ()

/-- `UriValidator::is_micro_form`. -/
def is_micro_form (uri : UUri) : Bool :=
  !is_empty uri &&
    (match uri.entity with | some e => e.id.isSome | none => false) &&
    (match uri.resource with | some r => r.id.isSome | none => false) &&
    (match uri.authority with | some a => a.remote.isNone | none => false)

/-- Totalised `is_rpc_method`: every `Option.unwrap()` of the source is an
`Option.bind`, so a would-be panic surfaces as `none`. -/
def is_rpc_methodQ (uri : UUri) : Option Bool :=
  if is_empty uri then some false
  else do
    let r ← uri.resource
    pure (strContains r.name "rpc" &&
      ((r.inst.isSome && !(isBlank (r.inst.getD ""))) ||
       (r.id.isSome && r.id.getD 0 != 0)))

/-- Totalised `is_rpc_response` (see `is_rpc_methodQ`). -/
def is_rpc_responseQ (uri : UUri) : Option Bool := do
  let m ← is_rpc_methodQ uri
  if !m then pure false
  else do
    let r ← uri.resource
    pure ((r.inst.isSome && strContains (r.inst.getD "") "response") ||
      (r.id.isSome && r.id.getD 0 != 0))

/-- Totalised `is_micro_form` (see `is_rpc_methodQ`); the unwraps happen in
the source's left-to-right short-circuit order. -/
def is_micro_formQ (uri : UUri) : Option Bool :=
  if is_empty uri then some false
  else do
    let e ← uri.entity
    if !e.id.isSome then pure false
    else do
      let r ← uri.resource
      if !r.id.isSome then pure false
      else do
        let a ← uri.authority
        pure a.remote.isNone

end UriValidator

/-- `BITMASK_VERSION` from `src/uuid.rs` (`0b1111 << 12`). -/
def BITMASK_VERSION : Nat := 15 <<< 12

/-- `VERSION_CUSTOM` from `src/uuid.rs` (`0b1000 << 12`). -/
def VERSION_CUSTOM : Nat := 8 <<< 12

/-- `BITMASK_VARIANT` from `src/uuid.rs` (`0b11 << 62`). -/
def BITMASK_VARIANT : Nat := 3 <<< 62

/-- `VARIANT_RFC4122` from `src/uuid.rs` (`0b10 << 62`). -/
def VARIANT_RFC4122 : Nat := 2 <<< 62

/-- The 128-bit identifier (protobuf `UUID`): a pair of 64-bit words. -/
structure UUID where
  msb : Nat
  lsb : Nat

deriving instance DecidableEq for UUID

namespace UUID

/-- `UUID::is_custom_version`. -/
def is_custom_version (u : UUID) : Bool :=
  u.msb &&& BITMASK_VERSION == VERSION_CUSTOM

/-- `UUID::is_rfc_variant`. -/
def is_rfc_variant (u : UUID) : Bool :=
  u.lsb &&& BITMASK_VARIANT == VARIANT_RFC4122

/-- `UUID::is_uprotocol_uuid`. -/
def is_uprotocol_uuid (u : UUID) : Bool :=
  u.is_custom_version && u.is_rfc_variant

/-- `UUID::get_time`. -/
def get_time (u : UUID) : Option Nat :=
  if u.is_uprotocol_uuid then some (u.msb >>> 16) else none

/-- `UUID::from_u64_pair`; the `UuidConversionError` payload is its message. -/
def from_u64_pair (msb lsb : Nat) : Except String UUID :=
  if msb &&& BITMASK_VERSION != VERSION_CUSTOM then .error "not a v8 UUID"
  else if lsb &&& BITMASK_VARIANT != VARIANT_RFC4122 then .error "not an RFC4122 UUID"
  else .ok ⟨msb, lsb⟩

end UUID

/-- `Uuid::default()`: both words zero. -/
def uuidDefault : UUID := ⟨0, 0⟩

/-- Masking with a contiguous bit field equals extracting that field:
`x &&& ((2 ^ k - 1) <<< s)` keeps exactly bits `s ..= s+k-1` of `x`. -/
theorem and_mask_shiftLeft (x k s : Nat) :
    x &&& ((2 ^ k - 1) <<< s) = ((x >>> s) % 2 ^ k) <<< s := by
  apply Nat.eq_of_testBit_eq
  intro i
  simp only [Nat.testBit_and, Nat.testBit_shiftLeft, Nat.testBit_shiftRight,
    Nat.testBit_mod_two_pow, Nat.testBit_two_pow_sub_one, ge_iff_le]
  by_cases hs : s ≤ i
  · rw [Nat.add_sub_cancel' hs]
    cases x.testBit i <;> simp [hs]
  · simp [hs]

/-- A masked-field equality test is a test on the extracted field value. -/
theorem mask_eq_iff (x k s v : Nat) :
    (x &&& ((2 ^ k - 1) <<< s) = v <<< s) ↔ (x >>> s) % 2 ^ k = v := by
  rw [and_mask_shiftLeft, Nat.shiftLeft_eq, Nat.shiftLeft_eq]
  exact ⟨fun h => Nat.eq_of_mul_eq_mul_right (Nat.pos_pow_of_pos s (by omega)) h,
    fun h => by rw [h]⟩

/-- The address parsed from `"//VCU.myvin/body.access/1/rpc.UpdateDoor"`:
remote authority named `VCU.myvin`, entity `body.access` with major version 1,
resource named `rpc` with instance `UpdateDoor`. -/
def sinkUpdateDoor : UUri :=
  ⟨some ⟨some (Remote.name "VCU.myvin")⟩,
   some ⟨"body.access", none, some 1⟩,
   some ⟨"rpc", some "UpdateDoor", none, none⟩⟩

/-- C5: `validate_rpc_response` first runs the base `validate` and propagates
its failure; on a base-valid address it fails (with "Invalid RPC response
type") exactly when `is_rpc_response` holds and succeeds exactly when it does
not. -/
theorem C5_validate_rpc_response_characterisation (uri : UUri) :
    (∀ e, UriValidator.validate uri = .error e →
      UriValidator.validate_rpc_response uri = .error e) ∧
    (UriValidator.validate uri = .ok () →
      ((UriValidator.validate_rpc_response uri = .error "Invalid RPC response type") ↔
        UriValidator.is_rpc_response uri = true) ∧
      ((UriValidator.validate_rpc_response uri = .ok ()) ↔
        UriValidator.is_rpc_response uri = false)) := by
  unfold UriValidator.validate_rpc_response
  cases h : UriValidator.validate uri with
  | error e => simp
  | ok u =>
    cases u
    by_cases hr : UriValidator.is_rpc_response uri <;> simp [hr]

/-- Closed instance of `C5_validate_rpc_response_characterisation` at the
concrete, base-valid, non-response-shaped address `sinkUpdateDoor`. -/
theorem C5_witness :
    UriValidator.validate sinkUpdateDoor = .ok () ∧
    (UriValidator.validate_rpc_response sinkUpdateDoor = .ok () ↔
      UriValidator.is_rpc_response sinkUpdateDoor = false) :=
  ⟨rfl, ((C5_validate_rpc_response_characterisation sinkUpdateDoor).2 rfl).2⟩

/-- C6: `get_time` yields the 48-bit timestamp `msb >>> 16` exactly when the
4-bit version field (bits 12–15 of the high word) is `0b1000` and the top two
bits of the low word are `0b10`; on any mismatch it yields `none`. -/
theorem C6_get_time_characterisation (msb lsb : Nat)
    (hm : msb < 2 ^ 64) (hl : lsb < 2 ^ 64) :
    (UUID.get_time ⟨msb, lsb⟩ = some (msb >>> 16) ↔
      ((msb >>> 12) % 16 = 8 ∧ lsb >>> 62 = 2)) ∧
    (((msb >>> 12) % 16 ≠ 8 ∨ lsb >>> 62 ≠ 2) → UUID.get_time ⟨msb, lsb⟩ = none) := by
  have hv : (msb &&& BITMASK_VERSION = VERSION_CUSTOM) ↔ (msb >>> 12) % 16 = 8 := by
    have := mask_eq_iff msb 4 12 8
    norm_num at this
    simpa [BITMASK_VERSION, VERSION_CUSTOM] using this
  have hw : (lsb &&& BITMASK_VARIANT = VARIANT_RFC4122) ↔ lsb >>> 62 = 2 := by
    have h1 := mask_eq_iff lsb 2 62 2
    norm_num at h1
    have h2 : (lsb >>> 62) % 4 = lsb >>> 62 := by
      apply Nat.mod_eq_of_lt
      rw [Nat.shiftRight_eq_div_pow]
      omega
    rw [h2] at h1
    simpa [BITMASK_VARIANT, VARIANT_RFC4122] using h1
  unfold UUID.get_time UUID.is_uprotocol_uuid UUID.is_custom_version UUID.is_rfc_variant
  simp only [beq_iff_eq]
  constructor
  · by_cases h1 : msb &&& BITMASK_VERSION = VERSION_CUSTOM <;>
      by_cases h2 : lsb &&& BITMASK_VARIANT = VARIANT_RFC4122 <;>
      simp [h1, h2, ← hv, ← hw]
  · intro h
    have : ¬ (msb &&& BITMASK_VERSION = VERSION_CUSTOM ∧
        lsb &&& BITMASK_VARIANT = VARIANT_RFC4122) := by
      rw [hv, hw]; tauto
    by_cases h1 : msb &&& BITMASK_VERSION = VERSION_CUSTOM <;>
      by_cases h2 : lsb &&& BITMASK_VARIANT = VARIANT_RFC4122 <;>
      simp [h1, h2] <;> tauto

/-- Closed instance of `C6_get_time_characterisation`: the identifier with
timestamp 1, version `0b1000`, variant `0b10` decodes to creation time 1. -/
theorem C6_witness :
    UUID.get_time ⟨98304, 9223372036854775808⟩ = some (98304 >>> 16) :=
  (C6_get_time_characterisation 98304 9223372036854775808
    (by norm_num) (by norm_num)).1.mpr (by decide)

/-- Modelled from the spec (wording of claim C9): micro form requires numeric
ids on entity and resource and an authority that is absent or IP/numeric
(`Remote::Ip`). -/
def micro_form_spec (uri : UUri) : Bool :=
  (match uri.entity with | some e => e.id.isSome | none => false) &&
  (match uri.resource with | some r => r.id.isSome | none => false) &&
  (match uri.authority with
   | none => true
   | some a =>
     match a.remote with
     | some (Remote.ip _) => true
     | some (Remote.name _) => false
     | none => true)

/-- An address with numeric entity and resource ids but no authority slot. -/
def microIdsNoAuthority : UUri :=
  ⟨none, some ⟨"body.access", some 5, none⟩, some ⟨"door", none, none, some 7⟩⟩

/-- C9 counterexample: the claim calls `microIdsNoAuthority` (numeric ids,
authority absent) micro form, but `is_micro_form` rejects it because the code
first requires all three slots to be structurally present. -/
theorem C9_counterexample :
    micro_form_spec microIdsNoAuthority = true ∧
    UriValidator.is_micro_form microIdsNoAuthority = false :=
  ⟨rfl, rfl⟩

/-- C9 (amended): `is_micro_form` is true exactly when all three slots are
present, entity and resource carry numeric ids, and the present authority's
remote field is absent; it is false on every empty (some-slot-missing)
address. -/
theorem C9_is_micro_form_characterisation (uri : UUri) :
    (UriValidator.is_micro_form uri = true ↔
      ((∃ a, uri.authority = some a ∧ a.remote = none) ∧
       (∃ e, uri.entity = some e ∧ e.id.isSome = true) ∧
       (∃ r, uri.resource = some r ∧ r.id.isSome = true))) ∧
    (UriValidator.is_empty uri = true → UriValidator.is_micro_form uri = false) := by
  obtain ⟨oa, oe, og⟩ := uri
  cases oa <;> cases oe <;> cases og <;>
    simp [UriValidator.is_micro_form, UriValidator.is_empty, and_comm, and_assoc]

/-- Closed instance of `C9_is_micro_form_characterisation`: the fully empty
address is empty and therefore not micro form. -/
theorem C9_witness :
    UriValidator.is_micro_form ⟨none, none, none⟩ = false :=
  (C9_is_micro_form_characterisation ⟨none, none, none⟩).2 rfl

/-- C10: the totalised predicates (`Option`-valued, where a slot-access panic
would be `none`) always return `some` and agree with the Boolean predicates;
on an empty address all three are `some false` with no slot access. -/
theorem C10_predicates_total (uri : UUri) :
    (UriValidator.is_rpc_methodQ uri = some (UriValidator.is_rpc_method uri) ∧
     UriValidator.is_rpc_responseQ uri = some (UriValidator.is_rpc_response uri) ∧
     UriValidator.is_micro_formQ uri = some (UriValidator.is_micro_form uri)) ∧
    (UriValidator.is_empty uri = true →
      UriValidator.is_rpc_methodQ uri = some false ∧
      UriValidator.is_rpc_responseQ uri = some false ∧
      UriValidator.is_micro_formQ uri = some false) := by
  obtain ⟨oa, oe, og⟩ := uri
  cases oa with
  | none =>
    simp [UriValidator.is_rpc_methodQ, UriValidator.is_rpc_responseQ,
      UriValidator.is_micro_formQ, UriValidator.is_rpc_method,
      UriValidator.is_rpc_response, UriValidator.is_micro_form,
      UriValidator.is_empty, Option.bind]
  | some a =>
    cases oe with
    | none =>
      simp [UriValidator.is_rpc_methodQ, UriValidator.is_rpc_responseQ,
        UriValidator.is_micro_formQ, UriValidator.is_rpc_method,
        UriValidator.is_rpc_response, UriValidator.is_micro_form,
        UriValidator.is_empty, Option.bind]
    | some e =>
      cases og with
      | none =>
        simp [UriValidator.is_rpc_methodQ, UriValidator.is_rpc_responseQ,
          UriValidator.is_micro_formQ, UriValidator.is_rpc_method,
          UriValidator.is_rpc_response, UriValidator.is_micro_form,
          UriValidator.is_empty, Option.bind]
      | some r =>
        refine ⟨⟨?_, ?_, ?_⟩, ?_⟩
        · simp [UriValidator.is_rpc_methodQ, UriValidator.is_rpc_method,
            UriValidator.is_empty, Option.bind]
        · have hm : UriValidator.is_rpc_methodQ ⟨some a, some e, some r⟩ =
              some (UriValidator.is_rpc_method ⟨some a, some e, some r⟩) := by
            simp [UriValidator.is_rpc_methodQ, UriValidator.is_rpc_method,
              UriValidator.is_empty, Option.bind]
          rw [UriValidator.is_rpc_responseQ, hm]
          cases hb : UriValidator.is_rpc_method ⟨some a, some e, some r⟩ <;>
            simp [UriValidator.is_rpc_response, hb, Option.bind]
        · cases hei : e.id <;> cases hri : r.id <;>
            simp [UriValidator.is_micro_formQ, UriValidator.is_micro_form,
              UriValidator.is_empty, Option.bind, hei, hri]
        · intro h
          simp [UriValidator.is_empty] at h

/-- Closed instance of `C10_predicates_total` at the empty address. -/
theorem C10_witness :
    UriValidator.is_rpc_methodQ ⟨none, none, none⟩ = some false ∧
    UriValidator.is_rpc_responseQ ⟨none, none, none⟩ = some false ∧
    UriValidator.is_micro_formQ ⟨none, none, none⟩ = some false :=
  (C10_predicates_total ⟨none, none, none⟩).2 rfl

/-- Modelled from the spec: membership in the closed, externally defined
`UCode` status-code enumeration (`UCode::try_from(cs).is_ok()`); the gRPC
status codes occupy the contiguous range `0 ..= 16`. -/
def isValidUCode (c : Int) : Bool := 0 ≤ c && c ≤ 16

/-- Modelled from the spec: `UuidUtils::is_uuid` (builder module, not under
`src/`) recognises an identifier whose version and variant bit patterns both
match, i.e. exactly `UUID::is_uprotocol_uuid` of `src/uuid.rs`. -/
def UuidUtils.is_uuid (u : UUID) : Bool := u.is_uprotocol_uuid

/-- The protobuf `UMessageType` enumeration (generated code; modelled from
the spec's role set plus the unspecified tag). -/
inductive UMessageType
  | unspecified
  | publish
  | request
  | response

deriving instance DecidableEq for UMessageType

/-- `UMessageType::try_from` on the raw `i32` tag. -/
def UMessageType.tryFrom (i : Int) : Option UMessageType :=
  if i = 0 then some .unspecified
  else if i = 1 then some .publish
  else if i = 2 then some .request
  else if i = 3 then some .response
  else none

/-- `UMessageType::as_str_name`. -/
def UMessageType.as_str_name : UMessageType → String
  | .unspecified => "UMESSAGE_TYPE_UNSPECIFIED"
  | .publish => "UMESSAGE_TYPE_PUBLISH"
  | .request => "UMESSAGE_TYPE_REQUEST"
  | .response => "UMESSAGE_TYPE_RESPONSE"

/-- Message metadata (protobuf `UAttributes`); `typ` models the field named
`type` (`i32` tag), the remaining validated fields keep their names. -/
structure UAttributes where
  typ : Int
  ttl : Option Int
  sink : Option UUri
  permission_level : Option Int
  commstatus : Option Int
  reqid : Option UUID
  id : Option UUID

deriving instance DecidableEq for UAttributes

/-- The role validators (`Validators::Publish/Request/Response`); trait
methods below take the role as first argument, default implementations being
the non-overridden branches. -/
inductive Role
  | publish
  | request
  | response

deriving instance DecidableEq for Role

namespace UAttributesValidator

/-- `validate_type` (per-role override of the abstract method). -/
def validate_type (v : Role) (a : UAttributes) : Except String Unit :=
  match UMessageType.tryFrom a.typ with
  | some mt =>
    match v, mt with
    | .publish, .publish => .ok ()
    | .request, .request => .ok ()
    | .response, .response => .ok ()
    | _, _ => .error ("Wrong Attribute Type [" ++ mt.as_str_name ++ "]")
  | none => .error ("Unknown Attribute Type [" ++ toString a.typ ++ "]")

/-- `validate_ttl`: trait default for Publish/Response, `RequestValidator`
override for Request. -/
def validate_ttl (v : Role) (a : UAttributes) : Except String Unit :=
  match v with
  | .request =>
    match a.ttl with
    | some t =>
      if t > 0 then .ok ()
      else .error ("Invalid TTL [" ++ toString t ++ "]")
    | none => .error "Missing TTL"
  | _ =>
    match a.ttl with
    | some t =>
      if t < 1 then .error ("Invalid TTL [" ++ toString t ++ "]")
      else .ok ()
    | none => .ok ()

/-- `validate_sink`: trait default for Publish, overridden for Request
(`validate_rpc_response`) and Response (`validate_rpc_method`). -/
def validate_sink (v : Role) (a : UAttributes) : Except String Unit :=
  match v with
  | .publish =>
    match a.sink with
    | some s => UriValidator.validate s
    | none => .ok ()
  | .request =>
    match a.sink with
    | some s => UriValidator.validate_rpc_response s
    | none => .error "Missing Sink"
  | .response =>
    match a.sink with
    | some s => UriValidator.validate_rpc_method s
    | none => .error "Missing Sink"

/-- `validate_permission_level` (trait default, never overridden). -/
def validate_permission_level (a : UAttributes) : Except String Unit :=
  match a.permission_level with
  | some p => if p < 1 then .error "Invalid Permission Level" else .ok ()
  | none => .ok ()

/-- `validate_commstatus` (trait default, never overridden). -/
def validate_commstatus (a : UAttributes) : Except String Unit :=
  match a.commstatus with
  | some cs =>
    if !isValidUCode cs then
      .error ("Invalid Communication Status Code [" ++ toString cs ++ "]")
    else .ok ()
  | none => .ok ()

/-- `validate_reqid`: trait default for Publish/Request, `ResponseValidator`
override for Response. -/
def validate_reqid (v : Role) (a : UAttributes) : Except String Unit :=
  match v with
  | .response =>
    match a.reqid with
    | some r =>
      if r = uuidDefault then .error "Missing correlation Id"
      else if UuidUtils.is_uuid r then .ok ()
      else .error "Missing correlation Id"
    | none => .error "Missing correlation Id"
  | _ =>
    match a.reqid with
    | some r => if !UuidUtils.is_uuid r then .error "Invalid UUID" else .ok ()
    | none => .ok ()

/-- `Vec::join("; ")` on the collected error strings. -/
def joinSemi : List String → String
  | [] => ""
  | [s] => s
  | s :: rest => s ++ "; " ++ joinSemi rest

/-- The six sub-check results, in the order the `vec!` in `validate` lists
them: type, ttl, sink, commstatus, permission level, reqid. -/
def checkResults (v : Role) (a : UAttributes) : List (Except String Unit) :=
  [validate_type v a, validate_ttl v a, validate_sink v a,
   validate_commstatus a, validate_permission_level a, validate_reqid v a]

/-- `Result::err` composed with the error's `to_string`. -/
def errOf : Except String Unit → Option String
  | .error e => some e
  | .ok _ => none

/-- The `filter_map(Result::err)` stage of `validate`. -/
def failingMsgs (v : Role) (a : UAttributes) : List String :=
  (checkResults v a).filterMap errOf

/-- `UAttributesValidator::validate` (trait default, never overridden): all
six sub-checks run, their error messages joined with `"; "`. -/
def validate (v : Role) (a : UAttributes) : Except String Unit :=
  let error_message := joinSemi (failingMsgs v a)
  if error_message.isEmpty then .ok () else .error error_message

end UAttributesValidator

/-- A list is a prefix of itself followed by anything. -/
theorem isPrefixOf_append_self (p r : List Char) :
    List.isPrefixOf p (p ++ r) = true := by
  induction p with
  | nil => simp [List.isPrefixOf]
  | cons a as ih => simp [List.isPrefixOf, ih]

/-- The empty pattern occurs in every list. -/
theorem substrB_nil_left (l : List Char) : substrB [] l = true := by
  cases l <;> simp [substrB, List.isPrefixOf]

/-- A pattern occurs at the front of `p ++ r`. -/
theorem substrB_self_append (p r : List Char) : substrB p (p ++ r) = true := by
  cases p with
  | nil => exact substrB_nil_left _
  | cons a as => simp [substrB, isPrefixOf_append_self]

/-- Occurrence is preserved by extending the text on the left. -/
theorem substrB_append_left (p l r : List Char) (h : substrB p r = true) :
    substrB p (l ++ r) = true := by
  induction l with
  | nil => simpa using h
  | cons c cs ih => simp [substrB, ih]

/-- Every element of a `"; "`-joined list occurs in the joined string. -/
theorem substrB_joinSemi_of_mem (s : String) (l : List String) (h : s ∈ l) :
    substrB s.data (UAttributesValidator.joinSemi l).data = true := by
  induction l with
  | nil => cases h
  | cons x rest ih =>
    cases rest with
    | nil =>
      rw [List.mem_singleton] at h
      subst h
      have := substrB_self_append s.data []
      simpa using this
    | cons y t =>
      rw [List.mem_cons] at h
      cases h with
      | inl h =>
        subst h
        show substrB s.data (s ++ "; " ++ UAttributesValidator.joinSemi (y :: t)).data = true
        rw [String.data_append, String.data_append, List.append_assoc]
        exact substrB_self_append _ _
      | inr h =>
        show substrB s.data (x ++ "; " ++ UAttributesValidator.joinSemi (y :: t)).data = true
        rw [String.data_append, String.data_append, List.append_assoc]
        exact substrB_append_left _ _ _
          (substrB_append_left _ _ _ (ih h))

/-- Appending on the right cannot erase a nonempty string. -/
theorem append_ne_empty_left (p q : String) (hp : p ≠ "") : p ++ q ≠ "" := by
  intro h
  apply hp
  have hd : p.data ++ q.data = [] := by rw [← String.data_append, h]
  have hpd : p.data = [] := by
    cases hx : p.data with
    | nil => rfl
    | cons a l => rw [hx] at hd; simp at hd
  cases p with
  | mk d =>
    simp only [String.data] at hpd
    rw [hpd]

/-- Joining a nonempty list of nonempty strings is nonempty. -/
theorem joinSemi_ne_empty (l : List String) (hne : l ≠ [])
    (hall : ∀ s ∈ l, s ≠ "") : UAttributesValidator.joinSemi l ≠ "" := by
  cases l with
  | nil => exact absurd rfl hne
  | cons x rest =>
    cases rest with
    | nil => exact hall x (List.mem_singleton.mpr rfl)
    | cons y t =>
      show x ++ "; " ++ UAttributesValidator.joinSemi (y :: t) ≠ ""
      exact append_ne_empty_left _ _
        (append_ne_empty_left _ _ (hall x (List.mem_cons_self x _)))

/-- A bracketed formatted message with nonempty prefix is nonempty. -/
theorem bracket_ne_empty (p q r : String) (hp : p ≠ "") : p ++ q ++ r ≠ "" :=
  append_ne_empty_left _ _ (append_ne_empty_left _ _ hp)

/-- Every failure message of `UriValidator::validate` is nonempty. -/
theorem uriValidate_error_ne (u : UUri) (e : String)
    (h : UriValidator.validate u = .error e) : e ≠ "" := by
  unfold UriValidator.validate at h
  repeat' split at h
  all_goals first
    | (simp only [Except.error.injEq] at h; subst h; decide)
    | (exact absurd h (by simp))

/-- Every failure message of `UriValidator::validate_rpc_method` is
nonempty. -/
theorem uriValidateRpcMethod_error_ne (u : UUri) (e : String)
    (h : UriValidator.validate_rpc_method u = .error e) : e ≠ "" := by
  unfold UriValidator.validate_rpc_method at h
  cases hv : UriValidator.validate u with
  | error e0 =>
    rw [hv] at h
    simp only [Except.error.injEq] at h
    subst h
    exact uriValidate_error_ne u e0 hv
  | ok u0 =>
    rw [hv] at h
    cases u0
    cases hm2 : UriValidator.is_rpc_method u
    all_goals simp [hm2] at h
    all_goals first | (rw [h]; decide) | (rw [← h]; decide)

/-- Every failure message of `UriValidator::validate_rpc_response` is
nonempty. -/
theorem uriValidateRpcResponse_error_ne (u : UUri) (e : String)
    (h : UriValidator.validate_rpc_response u = .error e) : e ≠ "" := by
  unfold UriValidator.validate_rpc_response at h
  cases hv : UriValidator.validate u with
  | error e0 =>
    rw [hv] at h
    simp only [Except.error.injEq] at h
    subst h
    exact uriValidate_error_ne u e0 hv
  | ok u0 =>
    rw [hv] at h
    cases u0
    cases hm2 : UriValidator.is_rpc_response u
    all_goals simp [hm2] at h
    all_goals first | (rw [h]; decide) | (rw [← h]; decide)

/-- Every failure message of any of the six sub-checks is nonempty. -/
theorem checkResults_error_ne_empty (v : Role) (a : UAttributes) (e : String)
    (h : Except.error e ∈ UAttributesValidator.checkResults v a) : e ≠ "" := by
  simp only [UAttributesValidator.checkResults, List.mem_cons,
    List.mem_singleton, List.not_mem_nil, or_false] at h
  rcases h with h | h | h | h | h | h
  · replace h := h.symm
    unfold UAttributesValidator.validate_type at h
    repeat' split at h
    all_goals first
      | (simp only [Except.error.injEq] at h; subst h;
         exact bracket_ne_empty _ _ _ (by decide))
      | (exact absurd h (by simp))
  · replace h := h.symm
    unfold UAttributesValidator.validate_ttl at h
    repeat' split at h
    all_goals first
      | (simp only [Except.error.injEq] at h; subst h;
         exact bracket_ne_empty _ _ _ (by decide))
      | (simp only [Except.error.injEq] at h; subst h; decide)
      | (exact absurd h (by simp))
  · replace h := h.symm
    unfold UAttributesValidator.validate_sink at h
    repeat' split at h
    all_goals first
      | (exact uriValidate_error_ne _ _ h)
      | (exact uriValidateRpcMethod_error_ne _ _ h)
      | (exact uriValidateRpcResponse_error_ne _ _ h)
      | (simp only [Except.error.injEq] at h; subst h; decide)
      | (exact absurd h (by simp))
  · replace h := h.symm
    unfold UAttributesValidator.validate_commstatus at h
    repeat' split at h
    all_goals first
      | (simp only [Except.error.injEq] at h; subst h;
         exact bracket_ne_empty _ _ _ (by decide))
      | (exact absurd h (by simp))
  · replace h := h.symm
    unfold UAttributesValidator.validate_permission_level at h
    repeat' split at h
    all_goals first
      | (simp only [Except.error.injEq] at h; subst h; decide)
      | (exact absurd h (by simp))
  · replace h := h.symm
    unfold UAttributesValidator.validate_reqid at h
    repeat' split at h
    all_goals first
      | (simp only [Except.error.injEq] at h; subst h; decide)
      | (exact absurd h (by simp))

/-- Every collected failure message is nonempty. -/
theorem failingMsgs_all_ne (v : Role) (a : UAttributes) :
    ∀ m ∈ UAttributesValidator.failingMsgs v a, m ≠ "" := by
  intro m hmem
  unfold UAttributesValidator.failingMsgs at hmem
  rw [List.mem_filterMap] at hmem
  obtain ⟨c, hc, hec⟩ := hmem
  cases c with
  | error e0 =>
    simp [UAttributesValidator.errOf] at hec
    subst hec
    exact checkResults_error_ne_empty v a _ hc
  | ok u => simp [UAttributesValidator.errOf] at hec

/-- With at least one failing sub-check, `validate` returns the joined
message. -/
theorem validate_error_of_ne (v : Role) (a : UAttributes)
    (hne : UAttributesValidator.failingMsgs v a ≠ []) :
    UAttributesValidator.validate v a =
      .error (UAttributesValidator.joinSemi (UAttributesValidator.failingMsgs v a)) := by
  have hj := joinSemi_ne_empty _ hne (failingMsgs_all_ne v a)
  have hbe : (UAttributesValidator.joinSemi (UAttributesValidator.failingMsgs v a)).isEmpty
      = false := by
    cases hx : (UAttributesValidator.joinSemi (UAttributesValidator.failingMsgs v a)).isEmpty
    · rfl
    · exact absurd (((UAttributesValidator.joinSemi
        (UAttributesValidator.failingMsgs v a)).isEmpty_iff).mp hx) hj
  unfold UAttributesValidator.validate
  simp [hbe]

/-- Any failing sub-check's message occurs inside `validate`'s error. -/
theorem validate_error_substr (v : Role) (a : UAttributes) (msg : String)
    (hm : msg ∈ UAttributesValidator.failingMsgs v a) :
    ∃ s, UAttributesValidator.validate v a = .error s ∧
      substrB msg.data s.data = true := by
  have hne : UAttributesValidator.failingMsgs v a ≠ [] := by
    intro h0
    rw [h0] at hm
    cases hm
  exact ⟨_, validate_error_of_ne v a hne, substrB_joinSemi_of_mem _ _ hm⟩

/-- C1: for every attribute value and each role validator, `validate` runs
all six sub-checks (succeeding only when every one succeeds), and on failure
returns the failing sub-checks' messages joined with "; " in the fixed order
type, ttl, sink, commstatus, permission level, reqid; in particular ttl = 0
together with an unrecognised commstatus yields one combined message
containing both reasons. -/
theorem C1_validate_aggregates_all_checks (v : Role) (a : UAttributes) :
    (UAttributesValidator.validate v a = .ok () ↔
      ∀ c ∈ UAttributesValidator.checkResults v a, c = .ok ()) ∧
    (UAttributesValidator.failingMsgs v a ≠ [] →
      UAttributesValidator.validate v a =
        .error (UAttributesValidator.joinSemi (UAttributesValidator.failingMsgs v a))) ∧
    (∀ cs : Int, a.ttl = some 0 → a.commstatus = some cs → isValidUCode cs = false →
      ∃ s, UAttributesValidator.validate v a = .error s ∧
        substrB ("Invalid TTL [0]").data s.data = true ∧
        substrB ("Invalid Communication Status Code [" ++ toString cs ++ "]").data
          s.data = true) := by
  refine ⟨⟨?_, ?_⟩, validate_error_of_ne v a, ?_⟩
  · intro hok c hc
    cases hcc : c with
    | ok u => cases u; rfl
    | error e =>
      subst hcc
      have hmem : e ∈ UAttributesValidator.failingMsgs v a := by
        unfold UAttributesValidator.failingMsgs
        rw [List.mem_filterMap]
        exact ⟨.error e, hc, rfl⟩
      obtain ⟨s, hs, _⟩ := validate_error_substr v a e hmem
      rw [hok] at hs
      cases hs
  · intro hall
    have hnil : UAttributesValidator.failingMsgs v a = [] := by
      unfold UAttributesValidator.failingMsgs
      rw [List.filterMap_eq_nil]
      intro c hc
      rw [hall c hc]
      rfl
    unfold UAttributesValidator.validate
    rw [hnil]
    rfl
  · intro cs httl hcs hcode
    have ht : UAttributesValidator.validate_ttl v a = .error "Invalid TTL [0]" := by
      cases v <;> simp [UAttributesValidator.validate_ttl, httl] <;> rfl
    have hc : UAttributesValidator.validate_commstatus a =
        .error ("Invalid Communication Status Code [" ++ toString cs ++ "]") := by
      simp [UAttributesValidator.validate_commstatus, hcs, hcode]
    have hmem1 : "Invalid TTL [0]" ∈ UAttributesValidator.failingMsgs v a := by
      unfold UAttributesValidator.failingMsgs
      rw [List.mem_filterMap]
      refine ⟨.error "Invalid TTL [0]", ?_, rfl⟩
      simp [UAttributesValidator.checkResults, ht]
    have hmem2 : ("Invalid Communication Status Code [" ++ toString cs ++ "]") ∈
        UAttributesValidator.failingMsgs v a := by
      unfold UAttributesValidator.failingMsgs
      rw [List.mem_filterMap]
      refine ⟨.error ("Invalid Communication Status Code [" ++ toString cs ++ "]"), ?_, rfl⟩
      simp [UAttributesValidator.checkResults, hc]
    have hne : UAttributesValidator.failingMsgs v a ≠ [] := by
      intro h0
      rw [h0] at hmem1
      cases hmem1
    exact ⟨_, validate_error_of_ne v a hne,
      substrB_joinSemi_of_mem _ _ hmem1, substrB_joinSemi_of_mem _ _ hmem2⟩

/-- Closed instance of `C1_validate_aggregates_all_checks`: Publish
attributes with ttl 0 and commstatus -42 fail with a message containing both
reasons. -/
theorem C1_witness :
    ∃ s, UAttributesValidator.validate Role.publish
        ⟨1, some 0, none, none, some (-42), none, none⟩ = .error s ∧
      substrB ("Invalid TTL [0]").data s.data = true ∧
      substrB ("Invalid Communication Status Code [" ++ toString (-42 : Int) ++ "]").data
        s.data = true :=
  (C1_validate_aggregates_all_checks Role.publish
    ⟨1, some 0, none, none, some (-42), none, none⟩).2.2 (-42) rfl rfl (by decide)

/-- C8: Response attributes whose reqid is absent, the all-zero default, or
not a valid uProtocol identifier fail validation with a combined message
containing "Missing correlation Id", whatever the other fields hold. -/
theorem C8_response_requires_correlation_id (a : UAttributes)
    (h : a.reqid = none ∨ a.reqid = some uuidDefault ∨
      (∃ r, a.reqid = some r ∧ UuidUtils.is_uuid r = false)) :
    ∃ s, UAttributesValidator.validate Role.response a = .error s ∧
      substrB ("Missing correlation Id").data s.data = true := by
  have hr : UAttributesValidator.validate_reqid Role.response a =
      .error "Missing correlation Id" := by
    rcases h with h | h | ⟨r, hr1, hr2⟩
    · simp [UAttributesValidator.validate_reqid, h]
    · simp [UAttributesValidator.validate_reqid, h]
    · by_cases hd : r = uuidDefault
      · simp [UAttributesValidator.validate_reqid, hr1, hd]
      · simp [UAttributesValidator.validate_reqid, hr1, hd, hr2]
  have hmem : "Missing correlation Id" ∈
      UAttributesValidator.failingMsgs Role.response a := by
    unfold UAttributesValidator.failingMsgs
    rw [List.mem_filterMap]
    refine ⟨.error "Missing correlation Id", ?_, rfl⟩
    simp [UAttributesValidator.checkResults, hr]
  exact validate_error_substr _ _ _ hmem

/-- Closed instance of `C8_response_requires_correlation_id`: a Response
attribute value with no reqid at all. -/
theorem C8_witness :
    ∃ s, UAttributesValidator.validate Role.response
        ⟨3, none, none, none, none, none, none⟩ = .error s ∧
      substrB ("Missing correlation Id").data s.data = true :=
  C8_response_requires_correlation_id ⟨3, none, none, none, none, none, none⟩
    (Or.inl rfl)

/-- C3: Request attributes with the `rpc.UpdateDoor` sink and ttl 1000 pass
the Request validator; the identical attributes with ttl 0 fail with exactly
"Invalid TTL [0]". -/
theorem C3_request_updatedoor_scenario :
    UAttributesValidator.validate Role.request
      ⟨2, some 1000, some sinkUpdateDoor, none, none, none, none⟩ = .ok () ∧
    UAttributesValidator.validate Role.request
      ⟨2, some 0, some sinkUpdateDoor, none, none, none, none⟩ =
      .error "Invalid TTL [0]" :=
  ⟨rfl, rfl⟩

/-- The canonical rpc-response sink: remote authority, entity `petapp`,
resource `rpc` with instance `response` (what
`UResourceBuilder::for_rpc_response()` produces). -/
def sinkRpcResponse : UUri :=
  ⟨some ⟨some (Remote.name "vcu.someVin.veh.uprotocol.corp.com")⟩,
   some ⟨"petapp.uprotocol.corp.com", none, some 1⟩,
   some ⟨"rpc", some "response", none, none⟩⟩

/-- C2 (divergence witness): the Request validator rejects exactly the
`rpc.response`-shaped sink the claim requires it to accept (message "Invalid
RPC response type"), and accepts the `rpc.UpdateDoor` sink the claim says
must fail; `validate_rpc_response` of the source negates the response-shape
test instead of requiring resource "rpc" with instance "response". -/
theorem C2_code_rejects_rpc_response_sink :
    UriValidator.validate_rpc_response sinkRpcResponse =
      .error "Invalid RPC response type" ∧
    UAttributesValidator.validate Role.request
      ⟨2, some 1000, some sinkRpcResponse, none, none, none, none⟩ =
      .error "Invalid RPC response type" ∧
    UAttributesValidator.validate Role.request
      ⟨2, some 1000, some sinkUpdateDoor, none, none, none, none⟩ = .ok () :=
  ⟨rfl, rfl, rfl⟩

/-- Body of `is_expired` after the ttl preamble: the source reads the clock
(`SystemTime::now().duration_since(UNIX_EPOCH)`, here the `clock` argument),
computes `duration.as_millis() as u64 - time` (wrapping 64-bit subtraction),
then applies the `ttl <= 0` early return and the `delta >= ttl as u64`
comparison. -/
def is_expired_go (clock : Except String Nat) (a : UAttributes) (ttl : Int) :
    Except String Unit :=
  match a.id with
  | some u =>
    match UUID.get_time u with
    | some time =>
      match clock with
      | .ok now =>
        if ttl ≤ 0 then .ok ()
        else if (now % 2 ^ 64 + 2 ^ 64 - time % 2 ^ 64) % 2 ^ 64 ≥ ttl.toNat then
          .error "Payload is expired"
        else .ok ()
      | .error e => .error e
    | none => .ok ()
  | none => .ok ()

/-- `UAttributesValidator::is_expired` (trait default): ttl preamble
(`Some(t) if t > 0` keeps `t`, other `Some` returns Ok, `None` keeps 0),
then `is_expired_go`. -/
def is_expired (clock : Except String Nat) (a : UAttributes) :
    Except String Unit :=
  match a.ttl with
  | some t => if t > 0 then is_expired_go clock a t else .ok ()
  | none => is_expired_go clock a 0

/-- The identifier with timestamp 1, version `0b1000`, variant `0b10`. -/
def uuidTime1 : UUID := ⟨98304, 9223372036854775808⟩

/-- C4 counterexample: at ttl 1, creation time 1 and clock 5000 the failure
message is "Payload is expired", not the claimed "payload is expired"; and
with ttl absent (but id carrying a creation time) a clock-read failure makes
`is_expired` return that error, not success. -/
theorem C4_counterexample :
    (is_expired (.ok 5000) ⟨1, some 1, none, none, none, none, some uuidTime1⟩ =
        .error "Payload is expired" ∧
      "Payload is expired" ≠ "payload is expired") ∧
    is_expired (.error "clock drift") ⟨1, none, none, none, none, none, some uuidTime1⟩ =
      .error "clock drift" :=
  ⟨⟨rfl, by decide⟩, rfl⟩

/-- C4 (amended): `is_expired` succeeds on a non-positive present ttl, a
missing id, or an id without creation time; with a creation time and a ttl
that is absent or positive it propagates a clock-read failure as an ordinary
error; with a positive ttl, creation time `time`, and clock value `now` it
fails with "Payload is expired" exactly when `now - time >= ttl`, succeeding
otherwise (in particular an absent ttl with a working clock succeeds). -/
theorem C4_is_expired_characterisation (a : UAttributes)
    (clock : Except String Nat) :
    (∀ t, a.ttl = some t → t ≤ 0 → is_expired clock a = .ok ()) ∧
    (a.id = none → is_expired clock a = .ok ()) ∧
    (∀ u, a.id = some u → UUID.get_time u = none → is_expired clock a = .ok ()) ∧
    (∀ u time e, a.id = some u → UUID.get_time u = some time →
      (a.ttl = none ∨ ∃ t, a.ttl = some t ∧ 0 < t) → clock = .error e →
      is_expired clock a = .error e) ∧
    (∀ u time now, a.id = some u → UUID.get_time u = some time →
      clock = .ok now → a.ttl = none → is_expired clock a = .ok ()) ∧
    (∀ u time now t, a.id = some u → UUID.get_time u = some time →
      clock = .ok now → a.ttl = some t → 0 < t → time ≤ now → now < 2 ^ 64 →
      ((is_expired clock a = .error "Payload is expired" ↔ t.toNat ≤ now - time) ∧
       (now - time < t.toNat → is_expired clock a = .ok ()))) := by
  refine ⟨?_, ?_, ?_, ?_, ?_, ?_⟩
  · intro t ht ht0
    have : ¬ t > 0 := by omega
    simp [is_expired, ht, this]
  · intro hid
    cases httl : a.ttl with
    | none => simp [is_expired, httl, is_expired_go, hid]
    | some t =>
      by_cases ht : t > 0 <;> simp [is_expired, httl, ht, is_expired_go, hid]
  · intro u hid hgt
    cases httl : a.ttl with
    | none => simp [is_expired, httl, is_expired_go, hid, hgt]
    | some t =>
      by_cases ht : t > 0 <;> simp [is_expired, httl, ht, is_expired_go, hid, hgt]
  · intro u time e hid hgt httl hclock
    rcases httl with httl | ⟨t, httl, ht⟩
    · simp [is_expired, httl, is_expired_go, hid, hgt, hclock]
    · simp [is_expired, httl, ht, is_expired_go, hid, hgt, hclock]
  · intro u time now hid hgt hclock httl
    have htime : time % 2 ^ 64 ≤ now % 2 ^ 64 + 2 ^ 64 := by
      have := Nat.mod_lt time (y := 2 ^ 64) (by norm_num)
      omega
    simp [is_expired, httl, is_expired_go, hid, hgt, hclock]
  · intro u time now t hid hgt hclock httl ht htn hnow
    have htlt : time < 2 ^ 64 := by omega
    have hdelta : (now % 2 ^ 64 + 2 ^ 64 - time % 2 ^ 64) % 2 ^ 64 = now - time := by
      rw [Nat.mod_eq_of_lt hnow, Nat.mod_eq_of_lt htlt]
      have h1 : now + 2 ^ 64 - time = (now - time) + 2 ^ 64 := by omega
      rw [h1, Nat.add_mod_right]
      exact Nat.mod_eq_of_lt (by omega)
    have hnp : ¬ t ≤ 0 := by omega
    have h2 : is_expired clock a =
        if t.toNat ≤ now - time then Except.error "Payload is expired"
        else Except.ok () := by
      simp only [is_expired, httl]
      rw [if_pos ht]
      simp only [is_expired_go, hid, hgt, hclock]
      rw [hdelta, if_neg hnp]
    rw [h2]
    constructor
    · constructor
      · intro hres
        by_contra hlt
        rw [if_neg hlt] at hres
        cases hres
      · intro hle
        rw [if_pos hle]
    · intro hlt
      rw [if_neg (by omega)]

/-- Closed instance of `C4_is_expired_characterisation`: ttl 1000, creation
time 1, clock 500 — not yet expired. -/
theorem C4_witness :
    is_expired (.ok 500) ⟨1, some 1000, none, none, none, none, some uuidTime1⟩ =
      .ok () :=
  ((C4_is_expired_characterisation
      ⟨1, some 1000, none, none, none, none, some uuidTime1⟩ (.ok 500)).2.2.2.2.2
    uuidTime1 1 500 1000 rfl rfl rfl rfl (by decide) (by decide) (by decide)).2
    (by decide)

/-- Lower-case hex digit character for a nibble (`0..=9 → '0'..'9'`,
`10..=15 → 'a'..'f'`), as produced by `uuid_simd::format_hyphenated` with
`AsciiCase::Lower`. -/
def hexCharLower (n : Nat) : Char :=
  if n < 10 then Char.ofNat (48 + n) else Char.ofNat (87 + n)

/-- The two hex characters of one byte. -/
def byteToHex (b : Nat) : List Char :=
  [hexCharLower (b / 16), hexCharLower (b % 16)]

/-- `u64::to_be_bytes`: the eight big-endian bytes of a 64-bit word. -/
def beBytes (n : Nat) : List Nat :=
  [n / 2 ^ 56 % 256, n / 2 ^ 48 % 256, n / 2 ^ 40 % 256, n / 2 ^ 32 % 256,
   n / 2 ^ 24 % 256, n / 2 ^ 16 % 256, n / 2 ^ 8 % 256, n % 256]

/-- `u64::from_be_bytes`: recombine big-endian bytes into a word. -/
def fromBeBytes (l : List Nat) : Nat :=
  l.foldl (fun acc b => acc * 256 + b) 0

/-- The 8-4-4-4-12 hyphenated layout of 16 bytes
(`uuid_simd::format_hyphenated`). -/
def hyphChars (bs : List Nat) : List Char :=
  match bs with
  | [b0, b1, b2, b3, b4, b5, b6, b7, b8, b9, b10, b11, b12, b13, b14, b15] =>
    byteToHex b0 ++ byteToHex b1 ++ byteToHex b2 ++ byteToHex b3 ++ [ '-' ] ++
    byteToHex b4 ++ byteToHex b5 ++ [ '-' ] ++
    byteToHex b6 ++ byteToHex b7 ++ [ '-' ] ++
    byteToHex b8 ++ byteToHex b9 ++ [ '-' ] ++
    byteToHex b10 ++ byteToHex b11 ++ byteToHex b12 ++ byteToHex b13 ++
    byteToHex b14 ++ byteToHex b15
  | _ => []

/-- `UUID::to_hyphenated_string`: the 36-character lowercase hyphenated text
of the 16 big-endian bytes of `msb` then `lsb`. -/
def UUID.to_hyphenated_string (u : UUID) : String :=
  String.mk (hyphChars (beBytes u.msb ++ beBytes u.lsb))

/-- Value of one hex digit character, case-insensitive
(`uuid_simd::parse_hyphenated` accepts both cases). -/
def hexVal (c : Char) : Option Nat :=
  if '0' ≤ c ∧ c ≤ '9' then some (c.toNat - 48)
  else if 'a' ≤ c ∧ c ≤ 'f' then some (c.toNat - 87)
  else if 'A' ≤ c ∧ c ≤ 'F' then some (c.toNat - 55)
  else none

/-- One byte from two hex digit characters. -/
def parseHexByte (hi lo : Char) : Option Nat :=
  (hexVal hi).bind fun h => (hexVal lo).map fun l => 16 * h + l

/-- `uuid_simd::parse_hyphenated`: exactly 36 characters, hyphens at
positions 8, 13, 18 and 23, hex digits elsewhere; yields the 16 bytes. -/
def parseGroups : List Char → Option (List Nat)
  | a1 :: a2 :: a3 :: a4 :: a5 :: a6 :: a7 :: a8 :: h1 ::
    b1 :: b2 :: b3 :: b4 :: h2 :: c1 :: c2 :: c3 :: c4 :: h3 ::
    d1 :: d2 :: d3 :: d4 :: h4 ::
    e1 :: e2 :: e3 :: e4 :: e5 :: e6 :: e7 :: e8 :: e9 :: e10 :: e11 :: e12 :: [] =>
    if h1 = '-' ∧ h2 = '-' ∧ h3 = '-' ∧ h4 = '-' then
      (parseHexByte a1 a2).bind fun x0 =>
      (parseHexByte a3 a4).bind fun x1 =>
      (parseHexByte a5 a6).bind fun x2 =>
      (parseHexByte a7 a8).bind fun x3 =>
      (parseHexByte b1 b2).bind fun x4 =>
      (parseHexByte b3 b4).bind fun x5 =>
      (parseHexByte c1 c2).bind fun x6 =>
      (parseHexByte c3 c4).bind fun x7 =>
      (parseHexByte d1 d2).bind fun x8 =>
      (parseHexByte d3 d4).bind fun x9 =>
      (parseHexByte e1 e2).bind fun x10 =>
      (parseHexByte e3 e4).bind fun x11 =>
      (parseHexByte e5 e6).bind fun x12 =>
      (parseHexByte e7 e8).bind fun x13 =>
      (parseHexByte e9 e10).bind fun x14 =>
      (parseHexByte e11 e12).map fun x15 =>
      [x0, x1, x2, x3, x4, x5, x6, x7, x8, x9, x10, x11, x12, x13, x14, x15]
    else none
  | _ => none

/-- `UUID::from_bytes`: split 16 bytes into two big-endian words and defer to
`from_u64_pair`. -/
def UUID.from_bytes (bs : List Nat) : Except String UUID :=
  match bs with
  | [b0, b1, b2, b3, b4, b5, b6, b7, b8, b9, b10, b11, b12, b13, b14, b15] =>
    UUID.from_u64_pair (fromBeBytes [b0, b1, b2, b3, b4, b5, b6, b7])
      (fromBeBytes [b8, b9, b10, b11, b12, b13, b14, b15])
  | _ => .error "invalid uuid length"

/-- `UUID::from_str` (`FromStr` impl): parse the hyphenated text, then
`from_bytes`; text-shape failures and version/variant failures are both
conversion errors. -/
def UUID.from_str (s : String) : Except String UUID :=
  match parseGroups s.data with
  | some bs => UUID.from_bytes bs
  | none => .error "invalid uuid string"

/-- Hex formatting of a nibble parses back to the nibble. -/
theorem hexVal_hexCharLower_fin :
    ∀ n : Fin 16, hexVal (hexCharLower n.val) = some n.val := by decide

/-- Hex formatting of a byte parses back to the byte. -/
theorem parseHexByte_byte (b : Nat) (h : b < 256) :
    parseHexByte (hexCharLower (b / 16)) (hexCharLower (b % 16)) = some b := by
  have h1 : b / 16 < 16 := by omega
  have h2 : b % 16 < 16 := Nat.mod_lt _ (by norm_num)
  have e1 := hexVal_hexCharLower_fin ⟨b / 16, h1⟩
  have e2 := hexVal_hexCharLower_fin ⟨b % 16, h2⟩
  simp only [Fin.val_mk] at e1 e2
  unfold parseHexByte
  rw [e1, e2, Option.some_bind, Option.map_some']
  congr 1
  omega

/-- Big-endian byte decomposition recombines to the original word. -/
theorem fromBeBytes_explicit (n : Nat) (h : n < 2 ^ 64) :
    fromBeBytes [n / 2 ^ 56 % 256, n / 2 ^ 48 % 256, n / 2 ^ 40 % 256,
      n / 2 ^ 32 % 256, n / 2 ^ 24 % 256, n / 2 ^ 16 % 256, n / 2 ^ 8 % 256,
      n % 256] = n := by
  simp only [fromBeBytes, List.foldl]
  omega

/-- Every byte produced by `beBytes` is below 256. -/
theorem mod256_lt (x : Nat) : x % 256 < 256 := Nat.mod_lt _ (by norm_num)

/-- Parsing the hyphenated layout of sixteen in-range bytes recovers the
bytes. -/
theorem parseGroups_hyphChars
    (b0 b1 b2 b3 b4 b5 b6 b7 b8 b9 b10 b11 b12 b13 b14 b15 : Nat)
    (h0 : b0 < 256) (h1 : b1 < 256) (h2 : b2 < 256) (h3 : b3 < 256)
    (h4 : b4 < 256) (h5 : b5 < 256) (h6 : b6 < 256) (h7 : b7 < 256)
    (h8 : b8 < 256) (h9 : b9 < 256) (h10 : b10 < 256) (h11 : b11 < 256)
    (h12 : b12 < 256) (h13 : b13 < 256) (h14 : b14 < 256) (h15 : b15 < 256) :
    parseGroups (hyphChars
        [b0, b1, b2, b3, b4, b5, b6, b7, b8, b9, b10, b11, b12, b13, b14, b15]) =
      some [b0, b1, b2, b3, b4, b5, b6, b7, b8, b9, b10, b11, b12, b13, b14, b15] := by
  simp only [hyphChars, byteToHex, List.cons_append, List.nil_append]
  rw [parseGroups.eq_1]
  rw [if_pos ⟨rfl, rfl, rfl, rfl⟩]
  rw [parseHexByte_byte b0 h0, parseHexByte_byte b1 h1, parseHexByte_byte b2 h2,
    parseHexByte_byte b3 h3, parseHexByte_byte b4 h4, parseHexByte_byte b5 h5,
    parseHexByte_byte b6 h6, parseHexByte_byte b7 h7, parseHexByte_byte b8 h8,
    parseHexByte_byte b9 h9, parseHexByte_byte b10 h10, parseHexByte_byte b11 h11,
    parseHexByte_byte b12 h12, parseHexByte_byte b13 h13, parseHexByte_byte b14 h14,
    parseHexByte_byte b15 h15]
  simp only [Option.some_bind, Option.map_some']

/-- Core of the identifier round trip: formatting a valid word pair and
parsing the text back restores both words. -/
theorem from_str_to_hyphenated (msb lsb : Nat) (hm : msb < 2 ^ 64)
    (hl : lsb < 2 ^ 64) (h1 : msb &&& BITMASK_VERSION = VERSION_CUSTOM)
    (h2 : lsb &&& BITMASK_VARIANT = VARIANT_RFC4122) :
    UUID.from_str (UUID.to_hyphenated_string ⟨msb, lsb⟩) = .ok ⟨msb, lsb⟩ := by
  have hp := parseGroups_hyphChars
    (msb / 2 ^ 56 % 256) (msb / 2 ^ 48 % 256) (msb / 2 ^ 40 % 256)
    (msb / 2 ^ 32 % 256) (msb / 2 ^ 24 % 256) (msb / 2 ^ 16 % 256)
    (msb / 2 ^ 8 % 256) (msb % 256)
    (lsb / 2 ^ 56 % 256) (lsb / 2 ^ 48 % 256) (lsb / 2 ^ 40 % 256)
    (lsb / 2 ^ 32 % 256) (lsb / 2 ^ 24 % 256) (lsb / 2 ^ 16 % 256)
    (lsb / 2 ^ 8 % 256) (lsb % 256)
    (mod256_lt _) (mod256_lt _) (mod256_lt _) (mod256_lt _)
    (mod256_lt _) (mod256_lt _) (mod256_lt _) (mod256_lt _)
    (mod256_lt _) (mod256_lt _) (mod256_lt _) (mod256_lt _)
    (mod256_lt _) (mod256_lt _) (mod256_lt _) (mod256_lt _)
  unfold UUID.to_hyphenated_string UUID.from_str
  dsimp only
  simp only [beBytes, List.cons_append, List.nil_append] at hp ⊢
  rw [hp]
  simp only [UUID.from_bytes]
  rw [fromBeBytes_explicit msb hm, fromBeBytes_explicit lsb hl]
  simp [UUID.from_u64_pair, h1, h2]

/-- C7: every word pair accepted by `from_u64_pair` (i.e. with valid version
and variant bit patterns — otherwise construction is a conversion error)
formats to its 36-character lowercase hyphenated text and parses back to an
identifier equal on both 64-bit words. -/
theorem C7_identifier_text_roundtrip (msb lsb : Nat)
    (hm : msb < 2 ^ 64) (hl : lsb < 2 ^ 64) :
    (∀ u, UUID.from_u64_pair msb lsb = .ok u →
      UUID.from_str u.to_hyphenated_string = .ok u ∧ u.msb = msb ∧ u.lsb = lsb) ∧
    ((msb &&& BITMASK_VERSION = VERSION_CUSTOM ∧
        lsb &&& BITMASK_VARIANT = VARIANT_RFC4122) ∨
      ∃ e, UUID.from_u64_pair msb lsb = .error e) := by
  by_cases h1 : msb &&& BITMASK_VERSION = VERSION_CUSTOM
  · by_cases h2 : lsb &&& BITMASK_VARIANT = VARIANT_RFC4122
    · constructor
      · intro u hu
        have hu2 : u = ⟨msb, lsb⟩ := by
          unfold UUID.from_u64_pair at hu
          simp [h1, h2] at hu
          exact hu.symm
        subst hu2
        exact ⟨from_str_to_hyphenated msb lsb hm hl h1 h2, rfl, rfl⟩
      · exact Or.inl ⟨h1, h2⟩
    · constructor
      · intro u hu
        unfold UUID.from_u64_pair at hu
        simp [h1, h2] at hu
      · refine Or.inr ⟨"not an RFC4122 UUID", ?_⟩
        unfold UUID.from_u64_pair
        simp [h1, h2]
  · constructor
    · intro u hu
      unfold UUID.from_u64_pair at hu
      simp [h1] at hu
    · refine Or.inr ⟨"not a v8 UUID", ?_⟩
      unfold UUID.from_u64_pair
      simp [h1]

/-- Closed instance of `C7_identifier_text_roundtrip`: the identifier with
timestamp 1 round-trips through its text form. -/
theorem C7_witness :
    UUID.from_str (UUID.to_hyphenated_string ⟨98304, 9223372036854775808⟩) =
      .ok ⟨98304, 9223372036854775808⟩ :=
  ((C7_identifier_text_roundtrip 98304 9223372036854775808
      (by norm_num) (by norm_num)).1
    ⟨98304, 9223372036854775808⟩ (by rfl)).1
